import Mathlib

/-!
Shallow embedding of `src/python/semantic_kernel/utils/settings.py`.

The module reads a `.env` configuration source and exposes one accessor per
external service.  Most accessors go through `dotenv_values(".env")`, which we
model as an association list `Config` of string keys to string values
(`config.get(k, None)` becomes `cfgGet`).  Two accessors (Pinecone, AstraDB)
scan the raw lines of the file by hand; those are modelled over `List Char`
lines further below.

Python `assert x, msg` on an `Optional[str]` fails when `x` is `None` or the
empty string (truthiness); `assert x is not None, msg` fails only on `None`.
Failure is modelled as `Except.error msg`.
-/

abbrev Config := List (String × String)

/-- `config.get(k, None)` on the mapping produced by `dotenv_values`. -/
def cfgGet (c : Config) (k : String) : Option String :=
  c.lookup k

/-- Python truthiness of an `Optional[str]`: `None` and `""` are falsy. -/
def truthy : Option String → Bool
  | none => false
  | some s => !(s == "")

/-- `assert v, msg` for `v : Optional[str]` (truthiness check). -/
def assertTruthy (v : Option String) (msg : String) : Except String String :=
  match v with
  | none => .error msg
  | some s => if s = "" then .error msg else .ok s

/-- `assert v is not None, msg` for `v : Optional[str]`. -/
def assertSome (v : Option String) (msg : String) : Except String String :=
  match v with
  | none => .error msg
  | some s => .ok s

/-- `openai_settings_from_dot_env`: returns `(api_key, org_id)`;
the org id is optional. -/
def openai_settings_from_dot_env (c : Config) :
    Except String (String × Option String) :=
  let api_key := cfgGet c "OPENAI_API_KEY"
  let org_id := cfgGet c "OPENAI_ORG_ID"
  match assertTruthy api_key "OpenAI API key not found in .env file" with
  | .error e => .error e
  | .ok k => .ok (k, org_id)

/-- Result of `azure_openai_settings_from_dot_env`: a three- or four-tuple
depending on `include_api_version` (Python `Union[Tuple[str, str, str],
Tuple[str, str, str, str]]`). -/
inductive AzureOpenAITuple
  | three (deployment api_key endpoint : String)
  | four (deployment api_key endpoint api_version : String)
  deriving DecidableEq, Repr

/-- `azure_openai_settings_from_dot_env`. -/
def azure_openai_settings_from_dot_env
    (include_deployment include_api_version : Bool) (c : Config) :
    Except String AzureOpenAITuple :=
  let deployment := cfgGet c "AZURE_OPENAI_DEPLOYMENT_NAME"
  let api_key := cfgGet c "AZURE_OPENAI_API_KEY"
  let endpoint := cfgGet c "AZURE_OPENAI_ENDPOINT"
  let api_version := cfgGet c "AZURE_OPENAI_API_VERSION"
  if include_deployment = true ∧ deployment = none then
    .error "Azure OpenAI deployment name not found in .env file"
  else if include_api_version = true ∧ api_version = none then
    .error "Azure OpenAI API version not found in .env file"
  else
    match assertTruthy api_key "Azure OpenAI API key not found in .env file" with
    | .error e => .error e
    | .ok k =>
      match assertTruthy endpoint "Azure OpenAI endpoint not found in .env file" with
      | .error e => .error e
      | .ok ep =>
        if include_api_version then
          .ok (.four (deployment.getD "") k ep (api_version.getD ""))
        else
          .ok (.three (deployment.getD "") k ep)

/-- `azure_openai_settings_from_dot_env_as_dict`: unpacks the tuple result
into four variables (`deployment_name, api_key, endpoint, api_version = ...`),
which raises `ValueError` in Python when the tuple function returned a
three-tuple, then builds the dict. -/
def azure_openai_settings_from_dot_env_as_dict
    (include_deployment include_api_version : Bool) (c : Config) :
    Except String (List (String × String)) :=
  match azure_openai_settings_from_dot_env include_deployment include_api_version c with
  | .error e => .error e
  | .ok (.three _ _ _) =>
    .error "ValueError: not enough values to unpack (expected 4, got 3)"
  | .ok (.four deployment_name api_key endpoint api_version) =>
    let ret := [("api_key", api_key), ("endpoint", endpoint)]
    let ret := if include_deployment then ret ++ [("deployment_name", deployment_name)] else ret
    let ret := if include_api_version then ret ++ [("api_version", api_version)] else ret
    .ok ret

/-- `bing_search_settings_from_dot_env`: note `assert api_key is not None`,
not a truthiness check. -/
def bing_search_settings_from_dot_env (c : Config) : Except String String :=
  assertSome (cfgGet c "BING_API_KEY") "Bing Search API key not found in .env file"

/-- `redis_settings_from_dot_env`: note `assert connection_string is not None`. -/
def redis_settings_from_dot_env (c : Config) : Except String String :=
  assertSome (cfgGet c "REDIS_CONNECTION_STRING")
    "Redis connection string not found in .env file"

/-- Result of `azure_aisearch_settings_from_dot_env`: `(api_key, url)` or
`(api_key, url, index_name)`. -/
inductive AISearchResult
  | two (api_key url : String)
  | three (api_key url index_name : String)
  deriving DecidableEq, Repr

/-- `azure_aisearch_settings_from_dot_env`. -/
def azure_aisearch_settings_from_dot_env (include_index_name : Bool) (c : Config) :
    Except String AISearchResult :=
  let api_key := cfgGet c "AZURE_AISEARCH_API_KEY"
  let url := cfgGet c "AZURE_AISEARCH_URL"
  match assertSome url "Azure AI Search URL not found in .env file" with
  | .error e => .error e
  | .ok u =>
    match assertSome api_key "Azure AI Search API key not found in .env file" with
    | .error e => .error e
    | .ok k =>
      if include_index_name = false then
        .ok (.two k u)
      else
        match assertSome (cfgGet c "AZURE_AISEARCH_INDEX_NAME")
            "Azure AI Search index name not found in .env file" with
        | .error e => .error e
        | .ok i => .ok (.three k u i)

/-- The `{"type": ..., "key": ...}` sub-mapping of the AI Search dict. -/
structure AISearchAuth where
  type : String
  key : String
  deriving DecidableEq, Repr

/-- The dict returned by `azure_aisearch_settings_from_dot_env_as_dict`. -/
structure AISearchDict where
  authentication : AISearchAuth
  endpoint : String
  index_name : String
  deriving DecidableEq, Repr

/-- `azure_aisearch_settings_from_dot_env_as_dict`: calls the tuple accessor
with `include_index_name=True` and repackages the three-tuple. -/
def azure_aisearch_settings_from_dot_env_as_dict (c : Config) :
    Except String AISearchDict :=
  match azure_aisearch_settings_from_dot_env true c with
  | .error e => .error e
  | .ok (.two _ _) =>
    .error "ValueError: not enough values to unpack (expected 3, got 2)"
  | .ok (.three api_key url index_name) =>
    .ok ⟨⟨"api_key", api_key⟩, url, index_name⟩

/-- Result of `azure_key_vault_settings_from_dot_env`: the code returns a
three-tuple only when both flags are set, otherwise `(endpoint, client_id)`. -/
inductive KeyVaultResult
  | two (endpoint : String) (client_id : Option String)
  | three (endpoint : String) (client_id client_secret : Option String)
  deriving DecidableEq, Repr

/-- `azure_key_vault_settings_from_dot_env`. -/
def azure_key_vault_settings_from_dot_env
    (include_client_id include_client_secret : Bool) (c : Config) :
    Except String KeyVaultResult :=
  let endpoint := cfgGet c "AZURE_KEY_VAULT_ENDPOINT"
  let client_id := cfgGet c "AZURE_KEY_VAULT_CLIENT_ID"
  let client_secret := cfgGet c "AZURE_KEY_VAULT_CLIENT_SECRET"
  match assertSome endpoint "Azure Key Vault endpoint not found in .env file" with
  | .error e => .error e
  | .ok ep =>
    if include_client_id = true ∧ client_id = none then
      .error "Azure Key Vault client ID not found in .env file"
    else if include_client_secret = true ∧ client_secret = none then
      .error "Azure Key Vault client secret not found in .env file"
    else if include_client_id = true ∧ include_client_secret = true then
      .ok (.three ep client_id client_secret)
    else
      .ok (.two ep client_id)

/-- C1: the dict variant of the Azure OpenAI accessor is not a total
projection of the tuple variant: with `include_api_version = false` the tuple
accessor succeeds with a three-tuple, but the dict accessor's four-way unpack
raises `ValueError`; with `include_api_version = true` the projection holds. -/
theorem azure_openai_as_dict_unpack_failure :
    azure_openai_settings_from_dot_env true false
        [("AZURE_OPENAI_DEPLOYMENT_NAME", "d"), ("AZURE_OPENAI_API_KEY", "k"),
          ("AZURE_OPENAI_ENDPOINT", "e")]
      = .ok (.three "d" "k" "e")
    ∧ azure_openai_settings_from_dot_env_as_dict true false
        [("AZURE_OPENAI_DEPLOYMENT_NAME", "d"), ("AZURE_OPENAI_API_KEY", "k"),
          ("AZURE_OPENAI_ENDPOINT", "e")]
      = .error "ValueError: not enough values to unpack (expected 4, got 3)"
    ∧ azure_openai_settings_from_dot_env_as_dict true true
        [("AZURE_OPENAI_DEPLOYMENT_NAME", "d"), ("AZURE_OPENAI_API_KEY", "k"),
          ("AZURE_OPENAI_ENDPOINT", "e"), ("AZURE_OPENAI_API_VERSION", "v")]
      = .ok [("api_key", "k"), ("endpoint", "e"), ("deployment_name", "d"),
          ("api_version", "v")] := by
  refine ⟨?_, ?_, ?_⟩ <;> rfl

/-- C4: with `include_client_id = false` and `include_client_secret = true`
on a source holding the endpoint and the client secret, the key vault accessor
succeeds but returns the two-field bundle `(endpoint, client_id = none)`:
the validated client secret is dropped and the unrequested client id slot is
returned instead. -/
theorem azure_key_vault_drops_validated_secret :
    azure_key_vault_settings_from_dot_env false true
        [("AZURE_KEY_VAULT_ENDPOINT", "ep"), ("AZURE_KEY_VAULT_CLIENT_SECRET", "sec")]
      = .ok (.two "ep" none) := by
  rfl

/-- C2 counterexample: `bing_search_settings_from_dot_env` and
`redis_settings_from_dot_env` accept a present-but-empty value and return the
empty string instead of failing, contradicting the claim. -/
theorem bing_redis_empty_value_accepted :
    bing_search_settings_from_dot_env [("BING_API_KEY", "")] = .ok ""
    ∧ redis_settings_from_dot_env [("REDIS_CONNECTION_STRING", "")] = .ok "" := by
  exact ⟨rfl, rfl⟩

/-- C2 amended: accessors whose source uses a truthiness assertion (such as
`openai_settings_from_dot_env`) fail on a missing or empty required value, but
`bing_search_settings_from_dot_env` and `redis_settings_from_dot_env` use
`assert ... is not None`: they fail only when the key is missing and return
the empty string when the key is present but empty. -/
theorem required_key_missing_or_empty (c : Config) :
    (cfgGet c "BING_API_KEY" = none →
      bing_search_settings_from_dot_env c
        = .error "Bing Search API key not found in .env file")
    ∧ (cfgGet c "BING_API_KEY" = some "" →
      bing_search_settings_from_dot_env c = .ok "")
    ∧ (cfgGet c "REDIS_CONNECTION_STRING" = none →
      redis_settings_from_dot_env c
        = .error "Redis connection string not found in .env file")
    ∧ (cfgGet c "REDIS_CONNECTION_STRING" = some "" →
      redis_settings_from_dot_env c = .ok "")
    ∧ (truthy (cfgGet c "OPENAI_API_KEY") = false →
      openai_settings_from_dot_env c
        = .error "OpenAI API key not found in .env file") := by
  refine ⟨?_, ?_, ?_, ?_, ?_⟩
  · intro h; simp [bing_search_settings_from_dot_env, assertSome, h]
  · intro h; simp [bing_search_settings_from_dot_env, assertSome, h]
  · intro h; simp [redis_settings_from_dot_env, assertSome, h]
  · intro h; simp [redis_settings_from_dot_env, assertSome, h]
  · intro h
    cases hv : cfgGet c "OPENAI_API_KEY" with
    | none => simp [openai_settings_from_dot_env, assertTruthy, hv]
    | some s =>
      rw [hv] at h
      simp [truthy] at h
      simp [openai_settings_from_dot_env, assertTruthy, hv, h]

/-- Witness for `required_key_missing_or_empty` at concrete sources. -/
theorem required_key_missing_or_empty_witness :
    bing_search_settings_from_dot_env []
      = .error "Bing Search API key not found in .env file"
    ∧ redis_settings_from_dot_env [("REDIS_CONNECTION_STRING", "")] = .ok ""
    ∧ openai_settings_from_dot_env [("OPENAI_API_KEY", "")]
      = .error "OpenAI API key not found in .env file" :=
  ⟨(required_key_missing_or_empty []).1 rfl,
    (required_key_missing_or_empty [("REDIS_CONNECTION_STRING", "")]).2.2.2.1 rfl,
    (required_key_missing_or_empty [("OPENAI_API_KEY", "")]).2.2.2.2 rfl⟩

/-- C7: with `include_deployment = true`, on a source holding a non-empty API
key and endpoint but no deployment name, the Azure OpenAI accessor fails with
the error naming the deployment name, for either value of
`include_api_version`. -/
theorem azure_openai_missing_deployment_fails (c : Config) (b : Bool)
    (hd : cfgGet c "AZURE_OPENAI_DEPLOYMENT_NAME" = none)
    (_hk : truthy (cfgGet c "AZURE_OPENAI_API_KEY") = true)
    (_he : truthy (cfgGet c "AZURE_OPENAI_ENDPOINT") = true) :
    azure_openai_settings_from_dot_env true b c
      = .error "Azure OpenAI deployment name not found in .env file" := by
  simp [azure_openai_settings_from_dot_env, hd]

/-- Witness for `azure_openai_missing_deployment_fails`. -/
theorem azure_openai_missing_deployment_fails_witness :
    azure_openai_settings_from_dot_env true false
        [("AZURE_OPENAI_API_KEY", "k"), ("AZURE_OPENAI_ENDPOINT", "https://x")]
      = .error "Azure OpenAI deployment name not found in .env file" :=
  azure_openai_missing_deployment_fails _ false rfl rfl rfl

/-- C8: an optional-field inclusion flag set to `false` never requires the
corresponding key: with the flagged key entirely absent and the other required
keys present, the accessor succeeds (Azure OpenAI without deployment name and
API version, AI Search without index name, Key Vault without client ID or
without client secret). -/
theorem optional_flag_false_never_requires_key (c1 c2 c3 c4 : Config) :
    ((cfgGet c1 "AZURE_OPENAI_DEPLOYMENT_NAME" = none
        ∧ cfgGet c1 "AZURE_OPENAI_API_VERSION" = none
        ∧ truthy (cfgGet c1 "AZURE_OPENAI_API_KEY") = true
        ∧ truthy (cfgGet c1 "AZURE_OPENAI_ENDPOINT") = true) →
      (azure_openai_settings_from_dot_env false false c1).isOk = true)
    ∧ ((cfgGet c2 "AZURE_AISEARCH_INDEX_NAME" = none
        ∧ (cfgGet c2 "AZURE_AISEARCH_URL").isSome = true
        ∧ (cfgGet c2 "AZURE_AISEARCH_API_KEY").isSome = true) →
      (azure_aisearch_settings_from_dot_env false c2).isOk = true)
    ∧ ((cfgGet c3 "AZURE_KEY_VAULT_CLIENT_ID" = none
        ∧ (cfgGet c3 "AZURE_KEY_VAULT_ENDPOINT").isSome = true
        ∧ (cfgGet c3 "AZURE_KEY_VAULT_CLIENT_SECRET").isSome = true) →
      (azure_key_vault_settings_from_dot_env false true c3).isOk = true)
    ∧ ((cfgGet c4 "AZURE_KEY_VAULT_CLIENT_SECRET" = none
        ∧ (cfgGet c4 "AZURE_KEY_VAULT_ENDPOINT").isSome = true
        ∧ (cfgGet c4 "AZURE_KEY_VAULT_CLIENT_ID").isSome = true) →
      (azure_key_vault_settings_from_dot_env true false c4).isOk = true) := by
  refine ⟨?_, ?_, ?_, ?_⟩
  · rintro ⟨h1, h2, h3, h4⟩
    cases hk : cfgGet c1 "AZURE_OPENAI_API_KEY" with
    | none => rw [hk] at h3; simp [truthy] at h3
    | some k =>
      cases hep : cfgGet c1 "AZURE_OPENAI_ENDPOINT" with
      | none => rw [hep] at h4; simp [truthy] at h4
      | some ep =>
        rw [hk] at h3; rw [hep] at h4
        simp [truthy] at h3 h4
        simp [azure_openai_settings_from_dot_env, hk, hep, assertTruthy, h3, h4,
          Except.isOk, Except.toBool]
  · rintro ⟨h1, h2, h3⟩
    cases hu : cfgGet c2 "AZURE_AISEARCH_URL" with
    | none => rw [hu] at h2; simp at h2
    | some u =>
      cases hk : cfgGet c2 "AZURE_AISEARCH_API_KEY" with
      | none => rw [hk] at h3; simp at h3
      | some k =>
        simp [azure_aisearch_settings_from_dot_env, hu, hk, assertSome, Except.isOk, Except.toBool]
  · rintro ⟨h1, h2, h3⟩
    cases hep : cfgGet c3 "AZURE_KEY_VAULT_ENDPOINT" with
    | none => rw [hep] at h2; simp at h2
    | some ep =>
      cases hs : cfgGet c3 "AZURE_KEY_VAULT_CLIENT_SECRET" with
      | none => rw [hs] at h3; simp at h3
      | some s =>
        simp [azure_key_vault_settings_from_dot_env, hep, hs, assertSome, Except.isOk, Except.toBool]
  · rintro ⟨h1, h2, h3⟩
    cases hep : cfgGet c4 "AZURE_KEY_VAULT_ENDPOINT" with
    | none => rw [hep] at h2; simp at h2
    | some ep =>
      cases hi : cfgGet c4 "AZURE_KEY_VAULT_CLIENT_ID" with
      | none => rw [hi] at h3; simp at h3
      | some i =>
        simp [azure_key_vault_settings_from_dot_env, hep, hi, h1, assertSome,
          Except.isOk, Except.toBool]

/-- Witness for `optional_flag_false_never_requires_key` at concrete sources
each of which lacks exactly the flagged key. -/
theorem optional_flag_false_never_requires_key_witness :
    (azure_openai_settings_from_dot_env false false
        [("AZURE_OPENAI_API_KEY", "k"), ("AZURE_OPENAI_ENDPOINT", "e")]).isOk = true
    ∧ (azure_aisearch_settings_from_dot_env false
        [("AZURE_AISEARCH_URL", "u"), ("AZURE_AISEARCH_API_KEY", "k")]).isOk = true
    ∧ (azure_key_vault_settings_from_dot_env false true
        [("AZURE_KEY_VAULT_ENDPOINT", "ep"),
          ("AZURE_KEY_VAULT_CLIENT_SECRET", "s")]).isOk = true
    ∧ (azure_key_vault_settings_from_dot_env true false
        [("AZURE_KEY_VAULT_ENDPOINT", "ep"),
          ("AZURE_KEY_VAULT_CLIENT_ID", "i")]).isOk = true := by
  obtain ⟨w1, w2, w3, w4⟩ := optional_flag_false_never_requires_key
    [("AZURE_OPENAI_API_KEY", "k"), ("AZURE_OPENAI_ENDPOINT", "e")]
    [("AZURE_AISEARCH_URL", "u"), ("AZURE_AISEARCH_API_KEY", "k")]
    [("AZURE_KEY_VAULT_ENDPOINT", "ep"), ("AZURE_KEY_VAULT_CLIENT_SECRET", "s")]
    [("AZURE_KEY_VAULT_ENDPOINT", "ep"), ("AZURE_KEY_VAULT_CLIENT_ID", "i")]
  exact ⟨w1 ⟨rfl, rfl, rfl, rfl⟩, w2 ⟨rfl, rfl, rfl⟩, w3 ⟨rfl, rfl, rfl⟩,
    w4 ⟨rfl, rfl, rfl⟩⟩

/-- C10: the dict variant of the AI Search accessor unconditionally requires
the index name (it calls the tuple accessor with `include_index_name = true`),
and on success nests the API key under the `authentication` sub-mapping with
type `api_key`, with the endpoint and index name taken from the source. -/
theorem aisearch_as_dict_requires_index (c : Config) :
    (cfgGet c "AZURE_AISEARCH_INDEX_NAME" = none →
      (azure_aisearch_settings_from_dot_env_as_dict c).isOk = false)
    ∧ (∀ d, azure_aisearch_settings_from_dot_env_as_dict c = .ok d →
      d.authentication.type = "api_key"
      ∧ cfgGet c "AZURE_AISEARCH_API_KEY" = some d.authentication.key
      ∧ cfgGet c "AZURE_AISEARCH_URL" = some d.endpoint
      ∧ cfgGet c "AZURE_AISEARCH_INDEX_NAME" = some d.index_name) := by
  constructor
  · intro h
    cases hu : cfgGet c "AZURE_AISEARCH_URL" <;>
      cases hk : cfgGet c "AZURE_AISEARCH_API_KEY" <;>
        simp [azure_aisearch_settings_from_dot_env_as_dict,
          azure_aisearch_settings_from_dot_env, assertSome, h, hu, hk, Except.isOk, Except.toBool]
  · intro d hd
    obtain ⟨⟨t, ky⟩, ep, ix⟩ := d
    cases hu : cfgGet c "AZURE_AISEARCH_URL" with
    | none =>
      simp [azure_aisearch_settings_from_dot_env_as_dict,
        azure_aisearch_settings_from_dot_env, assertSome, hu] at hd
    | some u =>
      cases hk : cfgGet c "AZURE_AISEARCH_API_KEY" with
      | none =>
        simp [azure_aisearch_settings_from_dot_env_as_dict,
          azure_aisearch_settings_from_dot_env, assertSome, hu, hk] at hd
      | some k =>
        cases hi : cfgGet c "AZURE_AISEARCH_INDEX_NAME" with
        | none =>
          simp [azure_aisearch_settings_from_dot_env_as_dict,
            azure_aisearch_settings_from_dot_env, assertSome, hu, hk, hi] at hd
        | some i =>
          simp [azure_aisearch_settings_from_dot_env_as_dict,
            azure_aisearch_settings_from_dot_env, assertSome, hu, hk, hi] at hd
          obtain ⟨⟨h1, h2⟩, h3, h4⟩ := hd
          subst h1; subst h2; subst h3; subst h4
          simp [hu, hk, hi]

/-- Witness for `aisearch_as_dict_requires_index`: failing on a source
lacking the index name, and field values on a complete source. -/
theorem aisearch_as_dict_requires_index_witness :
    (azure_aisearch_settings_from_dot_env_as_dict
        [("AZURE_AISEARCH_URL", "u"), ("AZURE_AISEARCH_API_KEY", "k")]).isOk = false
    ∧ (AISearchDict.mk ⟨"api_key", "k"⟩ "u" "ix").authentication.type = "api_key"
    ∧ cfgGet [("AZURE_AISEARCH_URL", "u"), ("AZURE_AISEARCH_API_KEY", "k"),
        ("AZURE_AISEARCH_INDEX_NAME", "ix")] "AZURE_AISEARCH_API_KEY"
      = some (AISearchDict.mk ⟨"api_key", "k"⟩ "u" "ix").authentication.key := by
  refine ⟨(aisearch_as_dict_requires_index
      [("AZURE_AISEARCH_URL", "u"), ("AZURE_AISEARCH_API_KEY", "k")]).1 rfl, ?_, ?_⟩
  · exact ((aisearch_as_dict_requires_index
      [("AZURE_AISEARCH_URL", "u"), ("AZURE_AISEARCH_API_KEY", "k"),
        ("AZURE_AISEARCH_INDEX_NAME", "ix")]).2 _ rfl).1
  · exact ((aisearch_as_dict_requires_index
      [("AZURE_AISEARCH_URL", "u"), ("AZURE_AISEARCH_API_KEY", "k"),
        ("AZURE_AISEARCH_INDEX_NAME", "ix")]).2 _ rfl).2.1

/-!
Line-scanning accessors (`pinecone_settings_from_dot_env`,
`astradb_settings_from_dot_env`): the source opens `.env`, iterates over its
lines, and for each recognized key prefix takes
`"=".join(line.split("=")[1:]).strip().strip(DQUOTE)` as the value, where
`DQUOTE` is the double-quote character.  Lines are modelled as `List Char`
(without the trailing newline, which `strip()` would remove anyway).
-/

/-- Whitespace characters removed by Python `str.strip()`. -/
def wschar (c : Char) : Bool :=
  c == ' ' || c == '\t' || c == '\n' || c == '\r' || c == '\x0b' || c == '\x0c'

/-- The double-quote character test, for Python `str.strip(DQUOTE)`. -/
def qchar (c : Char) : Bool := c == '"'

/-- Remove from both ends all characters satisfying `p` (Python `str.strip`). -/
def strip2 (p : Char → Bool) (l : List Char) : List Char :=
  ((l.dropWhile p).reverse.dropWhile p).reverse

/-- Python `s.strip()`. -/
def pyStrip (l : List Char) : List Char := strip2 wschar l

/-- Python `s.strip(DQUOTE)`: removes ALL leading and trailing double quotes,
not a single layer. -/
def stripQuotes (l : List Char) : List Char := strip2 qchar l

/-- Python `s.split(sep)`, as first chunk and remaining chunks:
the full split list is `(pySplitAux sep s).1 :: (pySplitAux sep s).2`. -/
def pySplitAux (sep : Char) : List Char → List Char × List (List Char)
  | [] => ([], [])
  | c :: cs =>
    let r := pySplitAux sep cs
    if c = sep then ([], r.1 :: r.2) else (c :: r.1, r.2)

/-- Python `sep.join(parts)` for a one-character separator. -/
def pyJoin (sep : Char) : List (List Char) → List Char
  | [] => []
  | [x] => x
  | x :: xs => x ++ sep :: pyJoin sep xs

/-- The value a line-scanning accessor extracts from a matched line:
`"=".join(line.split("=")[1:]).strip().strip(DQUOTE)`. -/
def parseVal (line : List Char) : List Char :=
  stripQuotes (pyStrip (pyJoin '=' (pySplitAux '=' line).2))

/-- Python `line.startswith(pat)`. -/
def startswith : List Char → List Char → Bool
  | [], _ => true
  | _ :: _, [] => false
  | p :: ps, c :: cs => if p = c then startswith ps cs else false

def keyPineconeApiKey : List Char :=
  ['P', 'I', 'N', 'E', 'C', 'O', 'N', 'E', '_', 'A', 'P', 'I', '_', 'K', 'E', 'Y']

def keyPineconeEnv : List Char :=
  ['P', 'I', 'N', 'E', 'C', 'O', 'N', 'E', '_', 'E', 'N', 'V', 'I', 'R', 'O', 'N',
    'M', 'E', 'N', 'T']

/-- The `for line in lines` loop of `pinecone_settings_from_dot_env`; the two
accumulators start as `None` and a later matching line overwrites an earlier
one. -/
def pineconeScanAux : List (List Char) → Option (List Char) → Option (List Char) →
    Option (List Char) × Option (List Char)
  | [], api_key, environment => (api_key, environment)
  | line :: rest, api_key, environment =>
    if startswith keyPineconeApiKey line then
      pineconeScanAux rest (some (parseVal line)) environment
    else if startswith keyPineconeEnv line then
      pineconeScanAux rest api_key (some (parseVal line))
    else
      pineconeScanAux rest api_key environment

/-- `assert v, msg` for an optional string modelled as `List Char`. -/
def assertTruthyL (v : Option (List Char)) (msg : String) : Except String (List Char) :=
  match v with
  | none => .error msg
  | some s => if s = [] then .error msg else .ok s

/-- `pinecone_settings_from_dot_env`, over the lines of the `.env` file. -/
def pinecone_settings_from_dot_env (lines : List (List Char)) :
    Except String (List Char × List Char) :=
  let r := pineconeScanAux lines none none
  match assertTruthyL r.1 "Pinecone API key not found in .env file" with
  | .error e => .error e
  | .ok api_key =>
    match assertTruthyL r.2 "Pinecone environment not found in .env file" with
    | .error e => .error e
    | .ok environment => .ok (api_key, environment)

def keyAstraAppToken : List Char :=
  ['A', 'S', 'T', 'R', 'A', 'D', 'B', '_', 'A', 'P', 'P', '_', 'T', 'O', 'K', 'E', 'N']

def keyAstraId : List Char := ['A', 'S', 'T', 'R', 'A', 'D', 'B', '_', 'I', 'D']

def keyAstraRegion : List Char :=
  ['A', 'S', 'T', 'R', 'A', 'D', 'B', '_', 'R', 'E', 'G', 'I', 'O', 'N']

def keyAstraKeyspace : List Char :=
  ['A', 'S', 'T', 'R', 'A', 'D', 'B', '_', 'K', 'E', 'Y', 'S', 'P', 'A', 'C', 'E']

/-- The `for line in lines` loop of `astradb_settings_from_dot_env`. -/
def astradbScanAux : List (List Char) → Option (List Char) → Option (List Char) →
    Option (List Char) → Option (List Char) →
    Option (List Char) × Option (List Char) × Option (List Char) × Option (List Char)
  | [], app_token, db_id, region, keyspace => (app_token, db_id, region, keyspace)
  | line :: rest, app_token, db_id, region, keyspace =>
    if startswith keyAstraAppToken line then
      astradbScanAux rest (some (parseVal line)) db_id region keyspace
    else if startswith keyAstraId line then
      astradbScanAux rest app_token (some (parseVal line)) region keyspace
    else if startswith keyAstraRegion line then
      astradbScanAux rest app_token db_id (some (parseVal line)) keyspace
    else if startswith keyAstraKeyspace line then
      astradbScanAux rest app_token db_id region (some (parseVal line))
    else
      astradbScanAux rest app_token db_id region keyspace

/-- `astradb_settings_from_dot_env`, over the lines of the `.env` file. -/
def astradb_settings_from_dot_env (lines : List (List Char)) :
    Except String (List Char × List Char × List Char × List Char) :=
  let r := astradbScanAux lines none none none none
  match assertTruthyL r.1 "Astradb Application token not found in .env file" with
  | .error e => .error e
  | .ok app_token =>
    match assertTruthyL r.2.1 "Astradb ID not found in .env file" with
    | .error e => .error e
    | .ok db_id =>
      match assertTruthyL r.2.2.1 "Astradb Region not found in .env file" with
      | .error e => .error e
      | .ok region =>
        match assertTruthyL r.2.2.2 "Astradb Keyspace name not found in .env file" with
        | .error e => .error e
        | .ok keyspace => .ok (app_token, db_id, region, keyspace)

lemma pyJoin_cons_head (sep c : Char) (h : List Char) (t : List (List Char)) :
    pyJoin sep ((c :: h) :: t) = c :: pyJoin sep (h :: t) := by
  cases t <;> simp [pyJoin]

lemma pyJoin_pySplitAux (sep : Char) (l : List Char) :
    pyJoin sep ((pySplitAux sep l).1 :: (pySplitAux sep l).2) = l := by
  induction l with
  | nil => rfl
  | cons c cs ih =>
    by_cases hc : c = sep
    · subst hc
      simp only [pySplitAux]
      simp [pyJoin, ih]
    · simp only [pySplitAux]
      rw [if_neg hc]
      rw [show ((c :: (pySplitAux sep cs).1, (pySplitAux sep cs).2).1
            : List Char) = c :: (pySplitAux sep cs).1 from rfl]
      rw [pyJoin_cons_head, ih]

lemma pySplitAux_key (sep : Char) (key rest : List Char) (hk : ∀ c ∈ key, c ≠ sep) :
    pySplitAux sep (key ++ sep :: rest)
      = (key, (pySplitAux sep rest).1 :: (pySplitAux sep rest).2) := by
  induction key with
  | nil =>
    rw [List.nil_append]
    simp [pySplitAux]
  | cons c cs ih =>
    have hc : c ≠ sep := hk c (by simp)
    have ih' := ih (fun x hx => hk x (by simp [hx]))
    rw [List.cons_append]
    simp only [pySplitAux, List.append_eq]
    rw [if_neg hc, ih']

/-- On a line `KEY=rest` whose key part holds no `=`, the extracted value is
`rest.strip().strip(DQUOTE)`: embedded `=` characters in `rest` are preserved
by the split-and-rejoin. -/
lemma parseVal_eq (key rest : List Char) (hk : ∀ c ∈ key, c ≠ '=') :
    parseVal (key ++ '=' :: rest) = stripQuotes (pyStrip rest) := by
  unfold parseVal
  rw [pySplitAux_key '=' key rest hk]
  exact congrArg _ (congrArg _ (pyJoin_pySplitAux '=' rest))

lemma dropWhile_eq_self_of_head (p : Char → Bool) (v : List Char)
    (h : ∀ c, v.head? = some c → p c = false) : v.dropWhile p = v := by
  cases v with
  | nil => rfl
  | cons a l => simp [List.dropWhile_cons, h a rfl]

lemma dropWhile_replicate_append (p : Char → Bool) (a : Char) (ha : p a = true)
    (n : ℕ) (v : List Char) (hv : v.dropWhile p = v) :
    (List.replicate n a ++ v).dropWhile p = v := by
  induction n with
  | zero => simpa using hv
  | succ m ih => simp [List.replicate_succ, List.dropWhile_cons, ha, ih]

/-- `strip2 p` removes an arbitrary padding of `a`-characters on both sides of
a `v` that neither starts nor ends with one. -/
lemma strip2_wrapped (p : Char → Bool) (a : Char) (ha : p a = true) (n m : ℕ)
    (v : List Char) (hne : v ≠ [])
    (h1 : ∀ c, v.head? = some c → p c = false)
    (h2 : ∀ c, v.getLast? = some c → p c = false) :
    strip2 p (List.replicate n a ++ v ++ List.replicate m a) = v := by
  unfold strip2
  rw [List.append_assoc]
  rw [dropWhile_replicate_append p a ha n (v ++ List.replicate m a)
    (dropWhile_eq_self_of_head p _ (by
      intro c hc
      cases v with
      | nil => exact absurd rfl hne
      | cons d l =>
        rw [List.cons_append, List.head?_cons] at hc
        exact Option.some.inj hc ▸ h1 d rfl))]
  rw [List.reverse_append, List.reverse_replicate]
  rw [dropWhile_replicate_append p a ha m v.reverse
    (dropWhile_eq_self_of_head p _ (by
      intro c hc
      rw [List.head?_reverse] at hc
      exact h2 c hc))]
  exact List.reverse_reverse v

lemma pyStrip_quote_ends (l : List Char)
    (h1 : l.head? = some '"') (h2 : l.getLast? = some '"') : pyStrip l = l := by
  unfold pyStrip strip2
  have hi : l.dropWhile wschar = l :=
    dropWhile_eq_self_of_head _ _ (fun c hc => by
      rw [h1] at hc; rw [← Option.some.inj hc]; rfl)
  rw [hi]
  have ho : l.reverse.dropWhile wschar = l.reverse :=
    dropWhile_eq_self_of_head _ _ (fun c hc => by
      rw [List.head?_reverse, h2] at hc; rw [← Option.some.inj hc]; rfl)
  rw [ho]
  exact List.reverse_reverse l

/-- The full Python pipeline `.strip().strip(DQUOTE)` on a value padded with
quote characters on both sides returns the inner value, provided the inner
value neither starts nor ends with a quote character. -/
lemma strips_wrapped (n m : ℕ) (v : List Char) (hne : v ≠ [])
    (hh : v.head? ≠ some '"') (hl : v.getLast? ≠ some '"') :
    stripQuotes (pyStrip (List.replicate (n + 1) '"' ++ v ++ List.replicate (m + 1) '"'))
      = v := by
  have hh' : ∀ c, v.head? = some c → qchar c = false := by
    intro c hc
    have hcq : c ≠ '"' := fun h => hh (h ▸ hc)
    simp [qchar, hcq]
  have hl' : ∀ c, v.getLast? = some c → qchar c = false := by
    intro c hc
    have hcq : c ≠ '"' := fun h => hl (h ▸ hc)
    simp [qchar, hcq]
  rw [pyStrip_quote_ends]
  · exact strip2_wrapped qchar '"' rfl (n + 1) (m + 1) v hne hh' hl'
  · rw [List.replicate_succ, List.cons_append, List.cons_append, List.head?_cons]
  · rw [List.append_assoc,
      List.getLast?_append_of_ne_nil _ (by simp [List.replicate_succ]),
      List.getLast?_append_of_ne_nil _ (by simp [List.replicate_succ]),
      List.replicate_succ', List.getLast?_concat]

lemma startswith_self_append (p x : List Char) : startswith p (p ++ x) = true := by
  induction p with
  | nil => rfl
  | cons c cs ih => simp [startswith, ih]

lemma sw_api_env (r : List Char) :
    startswith keyPineconeApiKey (keyPineconeEnv ++ '=' :: r) = false := by
  simp [startswith, keyPineconeApiKey, keyPineconeEnv]

lemma sw_token_id (r : List Char) :
    startswith keyAstraAppToken (keyAstraId ++ '=' :: r) = false := by
  simp [startswith, keyAstraAppToken, keyAstraId]

lemma sw_token_region (r : List Char) :
    startswith keyAstraAppToken (keyAstraRegion ++ '=' :: r) = false := by
  simp [startswith, keyAstraAppToken, keyAstraRegion]

lemma sw_id_region (r : List Char) :
    startswith keyAstraId (keyAstraRegion ++ '=' :: r) = false := by
  simp [startswith, keyAstraId, keyAstraRegion]

lemma sw_token_keyspace (r : List Char) :
    startswith keyAstraAppToken (keyAstraKeyspace ++ '=' :: r) = false := by
  simp [startswith, keyAstraAppToken, keyAstraKeyspace]

lemma sw_id_keyspace (r : List Char) :
    startswith keyAstraId (keyAstraKeyspace ++ '=' :: r) = false := by
  simp [startswith, keyAstraId, keyAstraKeyspace]

lemma sw_region_keyspace (r : List Char) :
    startswith keyAstraRegion (keyAstraKeyspace ++ '=' :: r) = false := by
  simp [startswith, keyAstraRegion, keyAstraKeyspace]

lemma pineconeScanAux_pair (ra re : List Char) :
    pineconeScanAux [keyPineconeApiKey ++ '=' :: ra, keyPineconeEnv ++ '=' :: re]
        none none
      = (some (parseVal (keyPineconeApiKey ++ '=' :: ra)),
          some (parseVal (keyPineconeEnv ++ '=' :: re))) := by
  simp [pineconeScanAux, startswith_self_append, sw_api_env]

lemma pinecone_pair_result (ra re : List Char)
    (ha : stripQuotes (pyStrip ra) ≠ []) (he : stripQuotes (pyStrip re) ≠ []) :
    pinecone_settings_from_dot_env
        [keyPineconeApiKey ++ '=' :: ra, keyPineconeEnv ++ '=' :: re]
      = .ok (stripQuotes (pyStrip ra), stripQuotes (pyStrip re)) := by
  have hva := parseVal_eq keyPineconeApiKey ra (by decide)
  have hve := parseVal_eq keyPineconeEnv re (by decide)
  simp only [pinecone_settings_from_dot_env, pineconeScanAux_pair, hva, hve]
  simp [assertTruthyL, ha, he]

lemma astradbScanAux_quad (r1 r2 r3 r4 : List Char) :
    astradbScanAux [keyAstraAppToken ++ '=' :: r1, keyAstraId ++ '=' :: r2,
        keyAstraRegion ++ '=' :: r3, keyAstraKeyspace ++ '=' :: r4]
        none none none none
      = (some (parseVal (keyAstraAppToken ++ '=' :: r1)),
          some (parseVal (keyAstraId ++ '=' :: r2)),
          some (parseVal (keyAstraRegion ++ '=' :: r3)),
          some (parseVal (keyAstraKeyspace ++ '=' :: r4))) := by
  simp [astradbScanAux, startswith_self_append, sw_token_id, sw_token_region,
    sw_id_region, sw_token_keyspace, sw_id_keyspace, sw_region_keyspace]

lemma astradb_quad_result (r1 r2 r3 r4 : List Char)
    (h1 : stripQuotes (pyStrip r1) ≠ []) (h2 : stripQuotes (pyStrip r2) ≠ [])
    (h3 : stripQuotes (pyStrip r3) ≠ []) (h4 : stripQuotes (pyStrip r4) ≠ []) :
    astradb_settings_from_dot_env
        [keyAstraAppToken ++ '=' :: r1, keyAstraId ++ '=' :: r2,
          keyAstraRegion ++ '=' :: r3, keyAstraKeyspace ++ '=' :: r4]
      = .ok (stripQuotes (pyStrip r1), stripQuotes (pyStrip r2),
          stripQuotes (pyStrip r3), stripQuotes (pyStrip r4)) := by
  have e1 := parseVal_eq keyAstraAppToken r1 (by decide)
  have e2 := parseVal_eq keyAstraId r2 (by decide)
  have e3 := parseVal_eq keyAstraRegion r3 (by decide)
  have e4 := parseVal_eq keyAstraKeyspace r4 (by decide)
  simp only [astradb_settings_from_dot_env, astradbScanAux_quad, e1, e2, e3, e4]
  simp [assertTruthyL, h1, h2, h3, h4]

lemma pineconeScanAux_fst_last (ls : List (List Char)) (line : List Char)
    (h : startswith keyPineconeApiKey line = true) :
    ∀ a e, (pineconeScanAux (ls ++ [line]) a e).1 = some (parseVal line) := by
  induction ls with
  | nil => intro a e; simp [pineconeScanAux, h]
  | cons l ls ih =>
    intro a e
    rw [List.cons_append]
    by_cases h1 : startswith keyPineconeApiKey l = true
    · simp [pineconeScanAux, h1, ih]
    · by_cases h2 : startswith keyPineconeEnv l = true
      · simp [pineconeScanAux, h1, h2, ih]
      · simp [pineconeScanAux, h1, h2, ih]

/-- C3: given non-empty values for the required keys, the accessors return the
source values verbatim (for the line-scanning Pinecone accessor: the line
remainder after the first `=`, whitespace- and quote-stripped); the OpenAI
org id is passed through untouched. -/
theorem accessor_returns_source_values_verbatim (c : Config) (k : String)
    (hk : cfgGet c "OPENAI_API_KEY" = some k) (hne : k ≠ "")
    (ra re : List Char)
    (ha : stripQuotes (pyStrip ra) ≠ []) (he : stripQuotes (pyStrip re) ≠ []) :
    openai_settings_from_dot_env c = .ok (k, cfgGet c "OPENAI_ORG_ID")
    ∧ pinecone_settings_from_dot_env
        [keyPineconeApiKey ++ '=' :: ra, keyPineconeEnv ++ '=' :: re]
      = .ok (stripQuotes (pyStrip ra), stripQuotes (pyStrip re)) := by
  refine ⟨?_, pinecone_pair_result ra re ha he⟩
  simp [openai_settings_from_dot_env, assertTruthy, hk, hne]

/-- Witness for `accessor_returns_source_values_verbatim`: this is the spec's
own example `OPENAI_API_KEY=sk-abc123`, no `OPENAI_ORG_ID`. -/
theorem accessor_returns_source_values_verbatim_witness :
    openai_settings_from_dot_env [("OPENAI_API_KEY", "sk-abc123")]
      = .ok ("sk-abc123", none)
    ∧ pinecone_settings_from_dot_env
        [keyPineconeApiKey ++ '=' :: ['p'], keyPineconeEnv ++ '=' :: ['e']]
      = .ok (['p'], ['e']) := by
  have h := accessor_returns_source_values_verbatim
    [("OPENAI_API_KEY", "sk-abc123")] "sk-abc123" rfl (by decide)
    ['p'] ['e'] (by decide) (by decide)
  exact ⟨h.1.trans rfl, h.2.trans rfl⟩

/-- C5 counterexample: the value `a=b` followed by a double quote, stored
double-quoted under `PINECONE_API_KEY`, is NOT returned exactly: the trailing
quote of the value is stripped together with the wrapping quotes by Python's
`strip(DQUOTE)`, so the accessor returns `a=b`. -/
theorem pinecone_round_trip_counterexample :
    pinecone_settings_from_dot_env
        [keyPineconeApiKey ++ ['=', '"', 'a', '=', 'b', '"', '"'],
          keyPineconeEnv ++ ['=', 'e']]
      = .ok (['a', '=', 'b'], ['e'])
    ∧ (['a', '=', 'b'] : List Char) ≠ ['a', '=', 'b', '"'] := ⟨rfl, by decide⟩

/-- C5 amended: a double-quoted value is returned exactly — internal `=`
characters included — by the Pinecone and AstraDB line scanners, provided the
value is non-empty and neither starts nor ends with a double-quote character
(otherwise those quote characters are also stripped). -/
theorem round_trip_quoted_values (v w : List Char)
    (hv : v ≠ []) (hvh : v.head? ≠ some '"') (hvl : v.getLast? ≠ some '"')
    (hw : w ≠ []) (hwh : w.head? ≠ some '"') (hwl : w.getLast? ≠ some '"') :
    pinecone_settings_from_dot_env
        [keyPineconeApiKey ++ '='
            :: (List.replicate 1 '"' ++ v ++ List.replicate 1 '"'),
          keyPineconeEnv ++ ['=', 'e']]
      = .ok (v, ['e'])
    ∧ astradb_settings_from_dot_env
        [keyAstraAppToken ++ '='
            :: (List.replicate 1 '"' ++ w ++ List.replicate 1 '"'),
          keyAstraId ++ ['=', 'i'], keyAstraRegion ++ ['=', 'r'],
          keyAstraKeyspace ++ ['=', 'k']]
      = .ok (w, ['i'], ['r'], ['k']) := by
  have hv2 : stripQuotes (pyStrip (List.replicate 1 '"' ++ v ++ List.replicate 1 '"'))
      = v := strips_wrapped 0 0 v hv hvh hvl
  have hw2 : stripQuotes (pyStrip (List.replicate 1 '"' ++ w ++ List.replicate 1 '"'))
      = w := strips_wrapped 0 0 w hw hwh hwl
  constructor
  · have h := pinecone_pair_result
      (List.replicate 1 '"' ++ v ++ List.replicate 1 '"') ['e']
      (by rw [hv2]; exact hv) (by decide)
    rw [hv2] at h
    exact h.trans rfl
  · have h := astradb_quad_result
      (List.replicate 1 '"' ++ w ++ List.replicate 1 '"') ['i'] ['r'] ['k']
      (by rw [hw2]; exact hw) (by decide) (by decide) (by decide)
    rw [hw2] at h
    exact h.trans rfl

/-- Witness for `round_trip_quoted_values` at the value `a=b=c` stored
double-quoted under both services. -/
theorem round_trip_quoted_values_witness :
    pinecone_settings_from_dot_env
        [keyPineconeApiKey ++ '='
            :: (List.replicate 1 '"' ++ ['a', '=', 'b', '=', 'c']
              ++ List.replicate 1 '"'),
          keyPineconeEnv ++ ['=', 'e']]
      = .ok (['a', '=', 'b', '=', 'c'], ['e'])
    ∧ astradb_settings_from_dot_env
        [keyAstraAppToken ++ '='
            :: (List.replicate 1 '"' ++ ['x', '=', 'y'] ++ List.replicate 1 '"'),
          keyAstraId ++ ['=', 'i'], keyAstraRegion ++ ['=', 'r'],
          keyAstraKeyspace ++ ['=', 'k']]
      = .ok (['x', '=', 'y'], ['i'], ['r'], ['k']) :=
  round_trip_quoted_values ['a', '=', 'b', '=', 'c'] ['x', '=', 'y']
    (by decide) (by decide) (by decide) (by decide) (by decide) (by decide)

/-- C6 counterexample: the parser does not strip exactly one layer of quotes:
a doubly quoted value yields the bare inner value, with the inner quote layer
removed as well. -/
theorem quote_stripping_counterexample :
    parseVal (keyPineconeApiKey ++ ['=', '"', '"', 'v', '"', '"']) = ['v']
    ∧ (['v'] : List Char) ≠ ['"', 'v', '"'] := ⟨rfl, by decide⟩

/-- C6 amended: the parser strips ALL surrounding double-quote characters from
both ends of the value: both one layer and two layers of wrapping quotes yield
the bare inner value. -/
theorem quote_stripping_removes_all_layers (v : List Char) (hne : v ≠ [])
    (hh : v.head? ≠ some '"') (hl : v.getLast? ≠ some '"') :
    parseVal (keyPineconeApiKey ++ '='
        :: (List.replicate 1 '"' ++ v ++ List.replicate 1 '"')) = v
    ∧ parseVal (keyPineconeApiKey ++ '='
        :: (List.replicate 2 '"' ++ v ++ List.replicate 2 '"')) = v := by
  constructor
  · rw [parseVal_eq _ _ (by decide)]
    exact strips_wrapped 0 0 v hne hh hl
  · rw [parseVal_eq _ _ (by decide)]
    exact strips_wrapped 1 1 v hne hh hl

/-- Witness for `quote_stripping_removes_all_layers` at the value `v`. -/
theorem quote_stripping_removes_all_layers_witness :
    parseVal (keyPineconeApiKey ++ '='
        :: (List.replicate 1 '"' ++ ['v'] ++ List.replicate 1 '"')) = ['v']
    ∧ parseVal (keyPineconeApiKey ++ '='
        :: (List.replicate 2 '"' ++ ['v'] ++ List.replicate 2 '"')) = ['v'] :=
  quote_stripping_removes_all_layers ['v'] (by decide) (by decide) (by decide)

/-- C9: the Pinecone scanner matches the API-key line by `startswith`, so any
line beginning with `PINECONE_API_KEY` — longer key names included — assigns
the API key, and the last such line wins; concretely, a later
`PINECONE_API_KEY_BACKUP` line overrides an earlier exact `PINECONE_API_KEY`
line. -/
theorem pinecone_key_matched_by_line_start (ls : List (List Char))
    (line : List Char) (h : startswith keyPineconeApiKey line = true) :
    (pineconeScanAux (ls ++ [line]) none none).1 = some (parseVal line)
    ∧ pinecone_settings_from_dot_env
        [keyPineconeApiKey ++ ['=', 'f', 'i', 'r', 's', 't'],
          keyPineconeApiKey ++ ['_', 'B', 'A', 'C', 'K', 'U', 'P', '=', 's', 'e',
            'c', 'o', 'n', 'd'],
          keyPineconeEnv ++ ['=', 'e', 'n', 'v']]
      = .ok (['s', 'e', 'c', 'o', 'n', 'd'], ['e', 'n', 'v']) :=
  ⟨pineconeScanAux_fst_last ls line h none none, rfl⟩

/-- Witness for `pinecone_key_matched_by_line_start`: a `PINECONE_API_KEY_BACKUP`
line appended after an exact `PINECONE_API_KEY` line determines the key. -/
theorem pinecone_key_matched_by_line_start_witness :
    (pineconeScanAux
        ([keyPineconeApiKey ++ ['=', 'a']]
          ++ [keyPineconeApiKey ++ ['_', 'B', 'A', 'C', 'K', 'U', 'P', '=', 'b']])
        none none).1
      = some ['b'] :=
  (pinecone_key_matched_by_line_start [keyPineconeApiKey ++ ['=', 'a']]
    (keyPineconeApiKey ++ ['_', 'B', 'A', 'C', 'K', 'U', 'P', '=', 'b'])
    rfl).1.trans rfl
